import Mathlib

/-!
Shallow embedding of `src/execution/local_manager.py` (class `LocalManager`)
from the JavaBuildAgent repository, together with proofs of the specification
claims about it.

Modelling conventions:
* A filesystem state (`FS`) is the list of existing paths, mirroring what
  `os.path.exists` can observe.  `shutil.rmtree` removes a path and its whole
  subtree; `shutil.copytree` mirrors a subtree under a new root.
* `os.walk` output is an oracle: a list of `(root, files)` pairs in traversal
  order (the `dirs` component is never read by the source).
* Effectful operations that may raise (`shutil.rmtree`, `shutil.copy`,
  `os.chmod`, `subprocess.run`) take their outcome from oracle records; a
  Python exception that the source code does not catch is an `Except.error`.
* Environments are `String → Option String`; `os.environ.copy()` is modelled
  by the purity of the composing function (the inherited mapping is an
  immutable input, the child mapping a new value).
* `env_config` is a Python dict; only the keys `"build_tool"` and
  `"jdk_version"` are ever read, each via `.get` with a default, so it is
  modelled as two `Option String` fields.  `jdk_version` values are modelled
  by their textual form (the source only uses `str(jdk_version)`; the default
  `8` has textual form `"8"`).
-/

namespace JavaBuildAgent

/-- A filesystem path.  `os.path.join` in the source only ever appends
relative components, modelled by `pathJoin`. -/
abbrev Path := String

/-- `os.path.join a b` for the joins occurring in the source: appending an
empty component leaves the path unchanged up to a trailing separator that the
next join absorbs, so composite joins through `""` behave like skipping it. -/
def pathJoin (a b : Path) : Path :=
  if b = "" then a else if a = "" then b else a ++ "/" ++ b

/-- `os.path.basename`: the component after the last separator. -/
def basename (p : Path) : String :=
  String.mk ((p.data.reverse.takeWhile (fun c => c ≠ '/')).reverse)

/-- `os.path.dirname`: everything before the last separator (the POSIX
special case of a file directly under the root keeping its leading `"/"` is
not modelled; no path the source manipulates is such a file). -/
def dirname (p : Path) : String :=
  String.mk (((p.data.reverse.dropWhile (fun c => c ≠ '/')).drop 1).reverse)

/-- A filesystem state: the list of existing paths (`os.path.exists` is
membership). -/
abbrev FS := List Path

/-- `shutil.rmtree p`: remove `p` and everything below it. -/
def rmtreePath (fs : FS) (p : Path) : FS :=
  fs.filter (fun q => !(q == p || (p ++ "/").isPrefixOf q))

/-- `shutil.copytree src dst`: every path at or below `src` acquires a mirror
at or below `dst`. -/
def copytreeFS (fs : FS) (src dst : Path) : FS :=
  fs ++ fs.filterMap (fun q =>
    if q == src then some dst
    else if (src ++ "/").isPrefixOf q then some (dst ++ q.drop src.length)
    else none)

/-- A process environment mapping (`os.environ` and copies of it). -/
abbrev Env := String → Option String

/-- Update one variable of an environment mapping. -/
def envSet (e : Env) (k v : String) : Env :=
  fun k' => if k' = k then some v else e k'

/-- One `(root, files)` entry of an `os.walk` traversal (the `dirs` component
is never read by the source). -/
abbrev Walk := List (Path × List String)

/-- The hard-coded tool root (`self.tmp_root`). -/
def tmp_root : String := "/data2/donggyu/benchmark/sec_code/tmp"

/-- `self.jdk8_home`. -/
def jdk8_home : String := pathJoin (pathJoin tmp_root "jdks") "temurin8"

/-- `self.jdk17_home`. -/
def jdk17_home : String := pathJoin (pathJoin tmp_root "jdks") "temurin17"

/-- `self.maven_home`. -/
def maven_home : String := pathJoin tmp_root "maven"

/-- `self.gradle_home`. -/
def gradle_home : String := pathJoin tmp_root "gradle"

/-- The constructor state of `LocalManager`: the workspace, the two
configuration keys ever read from `env_config`, the build-relative path, and
the directory holding the module file (`os.path.dirname(__file__)`, used for
the bundled `init.gradle` template). -/
structure LocalManager where
  workspace_path : String
  env_config_build_tool : Option String
  env_config_jdk_version : Option String
  build_relative_path : String
  module_dir : String

/-- Observable side effects of `_run_build` other than its return value. -/
inductive Effect where
  | copyFile (src dst : Path)
  | chmod (path : Path)
  | launch (cmd : List String) (cwd : Path)
  deriving Repr, DecidableEq

/-- Outcome of the `subprocess.run` call: either a completed process with its
return code and captured streams, or a raised exception (`OSError` etc.). -/
inductive ProcResult where
  | ok (returncode : Int) (stdout stderr : String)
  | exn (msg : String)

/-- Oracle for the effectful operations inside `_run_build`. -/
structure RunOracle where
  gradleWalk : Walk
  mavenWalk : Walk
  copyInitErr : Option String
  chmodErr : Option String
  proc : ProcResult

/-- Oracle for `shutil.rmtree` inside `_clean_target_on_host`: `some msg`
means removing this path raises with that message. -/
structure CleanOracle where
  rmtreeErr : Path → Option String

/-- Oracle for the effectful operations inside `_extract_artifacts`. -/
structure ExtractOracle where
  rmtreeDestErr : Option String
  copytreeErr : Option String

/-- Oracles for one `execute` call.  `fsAfterBuild` is the workspace state
after the child build process ran: the process mutates the filesystem in ways
the manager does not control, and extraction is only reachable after a zero
exit code, which only a launched process produces. -/
structure ExecOracle where
  clean : CleanOracle
  run : RunOracle
  fsAfterBuild : FS
  extract : ExtractOracle

/-- Result of `_run_build` when no uncaught exception escapes it.
`childEnv` is the environment passed to `subprocess.run`, present exactly
when a process was launched. -/
structure RunOutcome where
  exitCode : Int
  log : String
  effects : List Effect
  childEnv : Option Env

/-- Lines 89-92: `JAVA_HOME` selection from the textual form of the
configured JDK version. -/
def selectJavaHome (jdk_version_str : String) : String :=
  if jdk_version_str = "17" then jdk17_home else jdk8_home

/-- Lines 86, 94, 98, 126/158, 164: the child environment is a copy of the
inherited one with `JAVA_HOME` set and `PATH` rebuilt as
`JAVA_HOME/bin : toolBinDir : inherited PATH` (`os.pathsep` is `":"`). -/
def composeChildEnv (inherited : Env) (java_home toolBinDir : String) : Env :=
  let env := envSet inherited "JAVA_HOME" java_home
  envSet env "PATH"
    (pathJoin java_home "bin" ++ ":" ++ toolBinDir ++ ":" ++ ((env "PATH").getD ""))

/-- The `os.walk` fallback of tool resolution (lines 107-113 / 131-137):
return the first traversal entry whose directory is literally named `bin`
and lists a file with the executable's name. -/
def findBinViaWalk (exe : String) (walk : Walk) : Option Path :=
  match walk with
  | [] => none
  | (root, files) :: rest =>
    if exe ∈ files ∧ basename root = "bin" then some (pathJoin root exe)
    else findBinViaWalk exe rest

/-- Tool resolution (lines 105-115 / 129-139): the canonical path
`home/bin/exe` if it exists, otherwise the walk fallback. -/
def resolveTool (fs : FS) (walk : Walk) (home exe : String) : Option Path :=
  let canonical := pathJoin (pathJoin home "bin") exe
  if canonical ∈ fs then some canonical else findBinViaWalk exe walk

/-- Lines 141-156: the Maven command line. -/
def mavenCmd (fs : FS) (mvn_bin_path cwd workspace_path : String) : List String :=
  let cmd := [mvn_bin_path, "package", "-DskipTests", "-T", "1C"]
  let exclusions : List String :=
    if pathJoin cwd "distribution" ∈ fs then ["!distribution"] else []
  let cmd := if exclusions.isEmpty then cmd
             else cmd ++ ["-pl", String.intercalate "," exclusions]
  let cmd := cmd ++ ["-Dskip.npm=true", "-Dskip.node=true", "-Dskip.installnodenpm=true"]
  let settings_xml := pathJoin workspace_path "settings.xml"
  if settings_xml ∈ fs then cmd ++ ["-s", settings_xml] else cmd

/-- Lines 170-191: the shared launch tail of `_run_build`.  `os.chmod` and
`subprocess.run` sit in one `try`; either raising is caught and converted to
`(-1, description)`.  A completed process yields its return code verbatim and
`stdout ++ "\n" ++ stderr` as the log. -/
def launchProcess (o : RunOracle) (cmd : List String) (cwd : Path) (bin_path : Path)
    (env : Env) (effects0 : List Effect) : RunOutcome :=
  match o.chmodErr with
  | some e => ⟨-1, e, effects0, none⟩
  | none =>
    match o.proc with
    | .exn e => ⟨-1, e, effects0 ++ [Effect.chmod bin_path], none⟩
    | .ok rc out err =>
      ⟨rc, out ++ "\n" ++ err,
        effects0 ++ [Effect.chmod bin_path, Effect.launch cmd cwd], some env⟩

/-- `_run_build` after the two config reads of lines 82-83.  The only
exception that can escape it is the uncaught `shutil.copy` of the
`init.gradle` template (line 123). -/
def run_build_core (build_tool jdk_version_str workspace_path build_relative_path
    module_dir : String) (fs : FS) (inherited : Env) (o : RunOracle) :
    Except String RunOutcome :=
  let java_home := selectJavaHome jdk_version_str
  let cwd := pathJoin workspace_path build_relative_path
  if build_tool = "gradle" then
    match resolveTool fs o.gradleWalk gradle_home "gradle" with
    | none => .ok ⟨-1, "Gradle binary not found in " ++ gradle_home, [], none⟩
    | some gradle_bin_path =>
      let cmd := [gradle_bin_path, "compileJava", "-x", "test", "--stacktrace", "--info"]
      let init_gradle_src := pathJoin (pathJoin module_dir "templates") "init.gradle"
      if init_gradle_src ∈ fs then
        match o.copyInitErr with
        | some e => .error e
        | none =>
          let init_gradle_dst := pathJoin workspace_path "init.gradle"
          .ok (launchProcess o (cmd ++ ["--init-script", init_gradle_dst]) cwd
            gradle_bin_path
            (composeChildEnv inherited java_home (dirname gradle_bin_path))
            [Effect.copyFile init_gradle_src init_gradle_dst])
      else
        .ok (launchProcess o cmd cwd gradle_bin_path
          (composeChildEnv inherited java_home (dirname gradle_bin_path)) [])
  else if build_tool = "maven" then
    match resolveTool fs o.mavenWalk maven_home "mvn" with
    | none => .ok ⟨-1, "Maven binary not found in " ++ maven_home, [], none⟩
    | some mvn_bin_path =>
      .ok (launchProcess o (mavenCmd fs mvn_bin_path cwd workspace_path) cwd
        mvn_bin_path
        (composeChildEnv inherited java_home (dirname mvn_bin_path)) [])
  else
    .ok ⟨-1, "Unknown build tool: " ++ build_tool, [], none⟩

/-- `_run_build` (lines 74-191): read the two configuration values with their
defaults (`"maven"`, `8` whose textual form is `"8"`) and run the core. -/
def run_build (m : LocalManager) (fs : FS) (inherited : Env) (o : RunOracle) :
    Except String RunOutcome :=
  run_build_core (m.env_config_build_tool.getD "maven")
    (m.env_config_jdk_version.getD "8")
    m.workspace_path m.build_relative_path m.module_dir fs inherited o

/-- `_clean_target_on_host` (lines 59-72): for each of `target` and `build`
under the build subdirectory, if it exists try to remove it; a raising
removal is caught and recorded as a warning, leaving the state unchanged. -/
def clean_target_on_host (m : LocalManager) (fs : FS) (o : CleanOracle) :
    FS × List String :=
  let target_dir_mvn :=
    pathJoin (pathJoin m.workspace_path m.build_relative_path) "target"
  let target_dir_gradle :=
    pathJoin (pathJoin m.workspace_path m.build_relative_path) "build"
  List.foldl (fun acc d =>
      if d ∈ acc.1 then
        match o.rmtreeErr d with
        | some e => (acc.1, acc.2 ++ ["Failed to clean target directory: " ++ e])
        | none => (rmtreePath acc.1 d, acc.2)
      else acc)
    (fs, []) [target_dir_mvn, target_dir_gradle]

/-- Lines 200-211: probe the three candidate compiled-class trees in fixed
priority order. -/
def selectSourceClasses (m : LocalManager) (fs : FS) : Option Path :=
  let base := pathJoin m.workspace_path m.build_relative_path
  let source_classes_mvn := pathJoin (pathJoin base "target") "classes"
  let source_classes_gradle :=
    pathJoin (pathJoin (pathJoin (pathJoin base "build") "classes") "java") "main"
  if source_classes_mvn ∈ fs then some source_classes_mvn
  else if source_classes_gradle ∈ fs then some source_classes_gradle
  else
    let source_classes_gradle_legacy :=
      pathJoin (pathJoin (pathJoin base "build") "classes") "main"
    if source_classes_gradle_legacy ∈ fs then some source_classes_gradle_legacy
    else none

/-- `_extract_artifacts` (lines 193-226).  The `shutil.rmtree` of an existing
destination (line 220) is outside the `try`, so its exception escapes; the
`shutil.copytree` (line 223) is inside it, so its failure is absorbed.  The
result carries the updated filesystem and the chosen source tree. -/
def extract_artifacts (m : LocalManager) (fs : FS) (output_path : String)
    (o : ExtractOracle) : Except String (FS × Option Path) :=
  match selectSourceClasses m fs with
  | none => .ok (fs, none)
  | some source_classes =>
    let dest_classes := pathJoin output_path "classes"
    if dest_classes ∈ fs then
      match o.rmtreeDestErr with
      | some e => .error e
      | none =>
        let fs1 := rmtreePath fs dest_classes
        match o.copytreeErr with
        | some _ => .ok (fs1, some source_classes)
        | none => .ok (copytreeFS fs1 source_classes dest_classes, some source_classes)
    else
      match o.copytreeErr with
      | some _ => .ok (fs, some source_classes)
      | none => .ok (copytreeFS fs source_classes dest_classes, some source_classes)

/-- `execute` (lines 36-57): clean, run, extract on a zero exit code when a
destination was supplied; the top-level `except` converts any escaping
exception into `(False, str(e))`. -/
def execute (m : LocalManager) (fs : FS) (inherited : Env)
    (output_path : Option String) (o : ExecOracle) : Bool × String :=
  let fs1 := (clean_target_on_host m fs o.clean).1
  match run_build m fs1 inherited o.run with
  | .error e => (false, e)
  | .ok out =>
    if out.exitCode = 0 then
      match output_path with
      | some op =>
        match extract_artifacts m o.fsAfterBuild op o.extract with
        | .error e => (false, e)
        | .ok _ => (true, out.log)
      | none => (true, out.log)
    else (false, out.log)

/-- Concrete manager used by the C1 counterexample and witness: Maven
backend, JDK 8, empty build-relative path. -/
def cexM : LocalManager := ⟨"/ws", some "maven", some "8", "", "/mod"⟩

/-- Concrete inherited environment with no variables set. -/
def cexEnv : Env := fun _ => none

/-- Concrete oracles for the C1 counterexample: the build process succeeds
with exit code 0, the destination `classes` directory already exists after
the build, and removing it raises `"boom"`. -/
def cexOracle : ExecOracle :=
  ⟨⟨fun _ => none⟩,
   ⟨[], [], none, none, ProcResult.ok 0 "out" "err"⟩,
   ["/ws/target/classes", "/out/classes"],
   ⟨some "boom", none⟩⟩

/-- Concrete pre-build filesystem: only the canonical Maven binary exists. -/
def cexFS : FS := [pathJoin (pathJoin maven_home "bin") "mvn"]

/-- Like `cexOracle` but the destination removal succeeds. -/
def wOracle : ExecOracle :=
  ⟨⟨fun _ => none⟩,
   ⟨[], [], none, none, ProcResult.ok 0 "out" "err"⟩,
   ["/ws/target/classes", "/out/classes"],
   ⟨none, none⟩⟩

/-- The run outcome produced by `run_build` under `cexM`, `cexFS`, `cexEnv`
and the oracles of `wOracle`. -/
def wOut : RunOutcome :=
  ⟨0, "out\nerr",
   [Effect.chmod (pathJoin (pathJoin maven_home "bin") "mvn"),
    Effect.launch (mavenCmd cexFS (pathJoin (pathJoin maven_home "bin") "mvn") "/ws" "/ws") "/ws"],
   some (composeChildEnv cexEnv jdk8_home (dirname (pathJoin (pathJoin maven_home "bin") "mvn")))⟩

/-- Membership after `shutil.rmtree`: a path survives exactly when it was
present and is neither the removed path nor below it. -/
theorem mem_rmtreePath {fs : FS} {p q : Path} :
    q ∈ rmtreePath fs p ↔ q ∈ fs ∧ ¬(q = p ∨ (p ++ "/").isPrefixOf q) := by
  simp [rmtreePath, List.mem_filter, not_or]

/-- A removed path is gone from its own `rmtree` result. -/
theorem not_mem_rmtreePath_self (fs : FS) (p : Path) : p ∉ rmtreePath fs p := by
  intro h
  exact (mem_rmtreePath.1 h).2 (Or.inl rfl)

/-- `shutil.rmtree` only removes paths, never adds them. -/
theorem mem_of_mem_rmtreePath {fs : FS} {p q : Path} (h : q ∈ rmtreePath fs p) : q ∈ fs :=
  (mem_rmtreePath.1 h).1

/-- Joining `","` over the singleton exclusion list is the exclusion itself
(line 150's `",".join(exclusions)`). -/
theorem intercalate_distribution : ",".intercalate ["!distribution"] = "!distribution" := rfl

/-- The settings path appended by line 156 can collide with neither of the
flag literals `"-pl"` and `"-s"`. -/
theorem pathJoin_settings_ne (ws : String) :
    pathJoin ws "settings.xml" ≠ "-pl" ∧ pathJoin ws "settings.xml" ≠ "-s" := by
  unfold pathJoin
  by_cases h : ws = ""
  · simp [h]
  · simp only [if_neg h, if_neg (by decide : ¬("settings.xml" = ""))]
    constructor <;> intro heq <;>
      have hl := congrArg String.length heq <;>
      simp only [String.length_append,
        show ("/" : String).length = 1 from rfl,
        show ("settings.xml" : String).length = 12 from rfl,
        show ("-pl" : String).length = 3 from rfl,
        show ("-s" : String).length = 2 from rfl] at hl <;>
      omega

/-- Completeness of the `os.walk` fallback (lines 109-113 / 133-137): if any
traversal entry is a directory named `bin` listing the executable, the scan
returns such an entry's path. -/
theorem findBinViaWalk_complete (exe : String) (walk : Walk)
    (h : ∃ e ∈ walk, exe ∈ e.2 ∧ basename e.1 = "bin") :
    ∃ root files, (root, files) ∈ walk ∧ exe ∈ files ∧ basename root = "bin"
      ∧ findBinViaWalk exe walk = some (pathJoin root exe) := by
  induction walk with
  | nil => simp at h
  | cons hd rest ih =>
    obtain ⟨root, files⟩ := hd
    by_cases hc : exe ∈ files ∧ basename root = "bin"
    · exact ⟨root, files, List.mem_cons_self _ _, hc.1, hc.2, by simp [findBinViaWalk, hc]⟩
    · obtain ⟨e, he, hm⟩ := h
      rcases List.mem_cons.1 he with rfl | he'
      · exact absurd hm hc
      · obtain ⟨r, f, hrf, h1, h2, h3⟩ := ih ⟨e, he', hm⟩
        exact ⟨r, f, List.mem_cons_of_mem _ hrf, h1, h2, by simp [findBinViaWalk, hc, h3]⟩

/-- `_extract_artifacts` returns without exception whenever removing an
existing destination `classes` directory does not raise. -/
theorem extract_artifacts_ok (m : LocalManager) (fsA : FS) (op : String) (eo : ExtractOracle)
    (h : pathJoin op "classes" ∈ fsA → eo.rmtreeDestErr = none) :
    ∃ r, extract_artifacts m fsA op eo = .ok r := by
  unfold extract_artifacts
  match hs : selectSourceClasses m fsA with
  | none => exact ⟨(fsA, none), rfl⟩
  | some src =>
    simp only
    by_cases hd : pathJoin op "classes" ∈ fsA
    · rw [if_pos hd, h hd]
      match eo.copytreeErr with
      | some _ => exact ⟨_, rfl⟩
      | none => exact ⟨_, rfl⟩
    · rw [if_neg hd]
      match eo.copytreeErr with
      | some _ => exact ⟨_, rfl⟩
      | none => exact ⟨_, rfl⟩

/-- Claim C1 (amended): when the build run returns exit code 0, `execute`
returns success regardless of any cleaning failure and regardless of a
`copytree` failure during extraction — provided removing an existing
destination `classes` directory does not raise.  (`execute` is a total
function, so no exception escapes it.) -/
theorem execute_preserves_run_success (m : LocalManager) (fs : FS) (inherited : Env)
    (op : String) (o : ExecOracle) (out : RunOutcome)
    (h1 : run_build m (clean_target_on_host m fs o.clean).1 inherited o.run = .ok out)
    (h2 : out.exitCode = 0)
    (h3 : pathJoin op "classes" ∈ o.fsAfterBuild → o.extract.rmtreeDestErr = none) :
    execute m fs inherited (some op) o = (true, out.log) := by
  obtain ⟨r, hr⟩ := extract_artifacts_ok m o.fsAfterBuild op o.extract h3
  simp only [execute, h1, h2, hr, if_true]

/-- Claim C1 witness: a concrete successful Maven build with an existing
destination whose removal succeeds ends in `(true, log)`. -/
theorem execute_preserves_run_success_witness :
    execute cexM cexFS cexEnv (some "/out") wOracle = (true, wOut.log) :=
  execute_preserves_run_success cexM cexFS cexEnv "/out" wOracle wOut rfl rfl (fun _ => rfl)

/-- Claim C1 counterexample: the build run returns exit code 0, yet `execute`
returns `success = false` because removing the existing destination `classes`
directory (line 220, outside the `try`) raises and the top-level handler of
lines 55-57 converts it to a failure. -/
theorem dest_rmtree_failure_flips_success :
    (run_build cexM cexFS cexEnv cexOracle.run).map (fun r => (r.exitCode, r.log))
      = .ok (0, "out\nerr")
    ∧ execute cexM cexFS cexEnv (some "/out") cexOracle = (false, "boom") :=
  ⟨rfl, rfl⟩

/-- Claim C2: the composed environment's `JAVA_HOME` is the JDK-17 home
exactly when the configured version's textual form equals `"17"`, and the
JDK-8 home for every other value. -/
theorem jdk_selection_two_way_switch (jdk_version_str : String) (inherited : Env)
    (toolBinDir : String) :
    (composeChildEnv inherited (selectJavaHome jdk_version_str) toolBinDir) "JAVA_HOME"
      = some (selectJavaHome jdk_version_str)
    ∧ (selectJavaHome jdk_version_str = jdk17_home ↔ jdk_version_str = "17")
    ∧ (jdk_version_str ≠ "17" → selectJavaHome jdk_version_str = jdk8_home) := by
  refine ⟨by simp [composeChildEnv, envSet], ⟨fun h => ?_, fun h => by simp [selectJavaHome, h]⟩,
    fun h => by simp [selectJavaHome, h]⟩
  by_contra hne
  simp only [selectJavaHome, if_neg hne] at h
  exact absurd h (by decide)

/-- Claim C2 witness: the malformed version `"11"` selects the JDK-8 home. -/
theorem jdk_selection_two_way_switch_witness :
    ¬("11" : String) = "17" ∧ selectJavaHome "11" = jdk8_home :=
  ⟨by decide, (jdk_selection_two_way_switch "11" (fun _ => none) "/tool").2.2 (by decide)⟩

/-- Claim C3: a configured backend that is neither `"maven"` nor `"gradle"`
makes `_run_build` return exit code −1 with a descriptive message, an empty
effect list (so no filesystem mutation, no `chmod`, no launched process) and
no child environment. -/
theorem unknown_backend_inert (m : LocalManager) (fs : FS) (inherited : Env) (o : RunOracle)
    (h1 : m.env_config_build_tool.getD "maven" ≠ "maven")
    (h2 : m.env_config_build_tool.getD "maven" ≠ "gradle") :
    run_build m fs inherited o =
      .ok ⟨-1, "Unknown build tool: " ++ m.env_config_build_tool.getD "maven", [], none⟩ := by
  unfold run_build run_build_core
  simp [h1, h2]

/-- Claim C3 witness: backend `"ant"` yields `(-1, message)` and no effects. -/
theorem unknown_backend_inert_witness :
    run_build ⟨"/ws", some "ant", some "8", "", "/m"⟩ [] (fun _ => none)
        ⟨[], [], none, none, ProcResult.exn "x"⟩
      = .ok ⟨-1, "Unknown build tool: ant", [], none⟩ :=
  unknown_backend_inert ⟨"/ws", some "ant", some "8", "", "/m"⟩ [] (fun _ => none)
    ⟨[], [], none, none, ProcResult.exn "x"⟩ (by decide) (by decide)

/-- Claim C4: the Maven command line is the resolved binary followed by
`package -DskipTests -T 1C`, then `-pl !distribution` exactly when the
`distribution` path exists under the build subdirectory, then always the
three npm/node-disabling flags, and it ends with `-s <workspaceRoot>/settings.xml`
exactly when that path exists. -/
theorem maven_command_shape (fs : FS) (mvn cwd ws : String)
    (h1 : mvn ≠ "-pl") (h2 : mvn ≠ "-s") :
    mavenCmd fs mvn cwd ws
      = [mvn, "package", "-DskipTests", "-T", "1C"]
        ++ (if pathJoin cwd "distribution" ∈ fs then ["-pl", "!distribution"] else [])
        ++ ["-Dskip.npm=true", "-Dskip.node=true", "-Dskip.installnodenpm=true"]
        ++ (if pathJoin ws "settings.xml" ∈ fs then ["-s", pathJoin ws "settings.xml"] else [])
    ∧ "-Dskip.npm=true" ∈ mavenCmd fs mvn cwd ws
    ∧ "-Dskip.node=true" ∈ mavenCmd fs mvn cwd ws
    ∧ "-Dskip.installnodenpm=true" ∈ mavenCmd fs mvn cwd ws
    ∧ ("-pl" ∈ mavenCmd fs mvn cwd ws ↔ pathJoin cwd "distribution" ∈ fs)
    ∧ ("-s" ∈ mavenCmd fs mvn cwd ws ↔ pathJoin ws "settings.xml" ∈ fs)
    ∧ (pathJoin ws "settings.xml" ∈ fs →
        mavenCmd fs mvn cwd ws
          = ([mvn, "package", "-DskipTests", "-T", "1C"]
              ++ (if pathJoin cwd "distribution" ∈ fs then ["-pl", "!distribution"] else [])
              ++ ["-Dskip.npm=true", "-Dskip.node=true", "-Dskip.installnodenpm=true"])
            ++ ["-s", pathJoin ws "settings.xml"]) := by
  obtain ⟨hs1, hs2⟩ := pathJoin_settings_ne ws
  by_cases hd : pathJoin cwd "distribution" ∈ fs <;>
    by_cases hs : pathJoin ws "settings.xml" ∈ fs <;>
    simp_all [mavenCmd, intercalate_distribution, h1, h2,
      Ne.symm h1, Ne.symm h2, Ne.symm hs1, Ne.symm hs2]

/-- Claim C4 witness: with both the `distribution` directory and
`settings.xml` present, the command carries both optional parts. -/
theorem maven_command_shape_witness :
    mavenCmd ["/ws/distribution", "/ws/settings.xml"] "/mvn" "/ws" "/ws"
      = ["/mvn", "package", "-DskipTests", "-T", "1C", "-pl", "!distribution",
         "-Dskip.npm=true", "-Dskip.node=true", "-Dskip.installnodenpm=true",
         "-s", "/ws/settings.xml"] :=
  (maven_command_shape ["/ws/distribution", "/ws/settings.xml"] "/mvn" "/ws" "/ws"
    (by decide) (by decide)).1

/-- Claim C5: resolution first takes the canonical `installRoot/bin/<exe>`
path when it exists; otherwise the walk fallback returns some file named
`<exe>` inside a directory literally named `bin` whenever one exists; and
when resolution fails entirely, `_run_build` returns exit code −1 with a
message naming the searched install root (for both backends). -/
theorem tool_resolution_canonical_then_walk (fs : FS) (walk : Walk) (home exe : String)
    (m : LocalManager) (inherited : Env) (o : RunOracle) :
    (pathJoin (pathJoin home "bin") exe ∈ fs →
      resolveTool fs walk home exe = some (pathJoin (pathJoin home "bin") exe))
    ∧ (pathJoin (pathJoin home "bin") exe ∉ fs →
       (∃ e ∈ walk, exe ∈ e.2 ∧ basename e.1 = "bin") →
       ∃ root files, (root, files) ∈ walk ∧ exe ∈ files ∧ basename root = "bin"
         ∧ resolveTool fs walk home exe = some (pathJoin root exe))
    ∧ (m.env_config_build_tool.getD "maven" = "gradle" →
       resolveTool fs o.gradleWalk gradle_home "gradle" = none →
       run_build m fs inherited o
         = .ok ⟨-1, "Gradle binary not found in " ++ gradle_home, [], none⟩)
    ∧ (m.env_config_build_tool.getD "maven" = "maven" →
       resolveTool fs o.mavenWalk maven_home "mvn" = none →
       run_build m fs inherited o
         = .ok ⟨-1, "Maven binary not found in " ++ maven_home, [], none⟩) := by
  refine ⟨fun h => by simp [resolveTool, h], fun h hw => ?_, fun hb hr => ?_, fun hb hr => ?_⟩
  · obtain ⟨r, f, h1, h2, h3, h4⟩ := findBinViaWalk_complete exe walk hw
    exact ⟨r, f, h1, h2, h3, by simp [resolveTool, h, h4]⟩
  · unfold run_build run_build_core
    simp [hb, hr]
  · unfold run_build run_build_core
    simp [hb, hr]

/-- Claim C5 witness: no canonical `bin/gradle`, but a `gradle` binary nested
deeper inside a directory named `bin` is found. -/
theorem tool_resolution_canonical_then_walk_witness :
    ∃ root files,
      (root, files) ∈ [("/g/sub", ["x"]), ("/g/sub/bin", ["gradle"])]
      ∧ "gradle" ∈ files ∧ basename root = "bin"
      ∧ resolveTool [] [("/g/sub", ["x"]), ("/g/sub/bin", ["gradle"])] gradle_home "gradle"
          = some (pathJoin root "gradle") :=
  (tool_resolution_canonical_then_walk [] [("/g/sub", ["x"]), ("/g/sub/bin", ["gradle"])]
    gradle_home "gradle" ⟨"", none, none, "", ""⟩ (fun _ => none)
    ⟨[], [], none, none, ProcResult.exn "x"⟩).2.1 (by decide) (by decide)

/-- Claim C6: on a normal launch the child's exit code is returned verbatim
with the combined log `stdout ++ "\n" ++ stderr`; a launch failure (or a
failing `chmod` in the same `try`) is converted to exit code −1 with the
failure description as the log; and the only exception that can escape
`_run_build` is the uncaught `shutil.copy` of the Gradle init script, never
a build result. -/
theorem run_build_exit_code_contract (o : RunOracle) (cmd : List String)
    (cwd bin_path : Path) (env : Env) (effects0 : List Effect)
    (rc : Int) (out err e : String) (m : LocalManager) (fs : FS) (inh : Env) :
    (o.chmodErr = none → o.proc = .ok rc out err →
      launchProcess o cmd cwd bin_path env effects0
        = ⟨rc, out ++ "\n" ++ err,
            effects0 ++ [Effect.chmod bin_path, Effect.launch cmd cwd], some env⟩)
    ∧ (o.chmodErr = none → o.proc = .exn e →
      launchProcess o cmd cwd bin_path env effects0
        = ⟨-1, e, effects0 ++ [Effect.chmod bin_path], none⟩)
    ∧ (o.chmodErr = some e →
      launchProcess o cmd cwd bin_path env effects0 = ⟨-1, e, effects0, none⟩)
    ∧ (run_build m fs inh o = .error e → o.copyInitErr = some e) := by
  refine ⟨fun h1 h2 => by simp [launchProcess, h1, h2],
    fun h1 h2 => by simp [launchProcess, h1, h2],
    fun h1 => by simp [launchProcess, h1], fun h => ?_⟩
  unfold run_build run_build_core at h
  split at h
  · generalize hres : resolveTool fs o.gradleWalk gradle_home "gradle" = res at h
    match res with
    | none => simp at h
    | some p =>
      simp only at h
      split at h
      · match hcp : o.copyInitErr with
        | some msg => rw [hcp] at h; simp at h; exact congrArg some h
        | none => rw [hcp] at h; simp at h
      · simp at h
  · split at h
    · generalize hres : resolveTool fs o.mavenWalk maven_home "mvn" = res at h
      match res with
      | none => simp at h
      | some p => simp at h
    · simp at h

/-- Claim C6 witness: a completed process with exit code 7 is reported
verbatim with stdout before stderr. -/
theorem run_build_exit_code_contract_witness :
    launchProcess ⟨[], [], none, none, ProcResult.ok 7 "o" "e"⟩ ["c"] "/w" "/b"
        (fun _ => none) []
      = ⟨7, "o" ++ "\n" ++ "e",
          [] ++ [Effect.chmod "/b", Effect.launch ["c"] "/w"], some (fun _ => none)⟩ :=
  (run_build_exit_code_contract ⟨[], [], none, none, ProcResult.ok 7 "o" "e"⟩ ["c"] "/w" "/b"
    (fun _ => none) [] 7 "o" "e" "e" ⟨"", none, none, "", ""⟩ [] (fun _ => none)).1 rfl rfl

/-- Claim C7: extraction probes `target/classes`, then
`build/classes/java/main`, then `build/classes/main`, in that order, copying
from the first existing tree (so Maven's tree wins when both exist); an
existing `destination/classes` is removed wholesale before the copy; and
with no candidate it returns without error and without touching the
filesystem. -/
theorem extract_priority_and_full_replace (m : LocalManager) (fs : FS) (op : String)
    (o : ExtractOracle) (src : Path) :
    (pathJoin (pathJoin (pathJoin m.workspace_path m.build_relative_path) "target") "classes" ∈ fs →
      selectSourceClasses m fs
        = some (pathJoin (pathJoin (pathJoin m.workspace_path m.build_relative_path) "target") "classes"))
    ∧ (pathJoin (pathJoin (pathJoin m.workspace_path m.build_relative_path) "target") "classes" ∉ fs →
       pathJoin (pathJoin (pathJoin (pathJoin (pathJoin m.workspace_path m.build_relative_path) "build") "classes") "java") "main" ∈ fs →
      selectSourceClasses m fs
        = some (pathJoin (pathJoin (pathJoin (pathJoin (pathJoin m.workspace_path m.build_relative_path) "build") "classes") "java") "main"))
    ∧ (pathJoin (pathJoin (pathJoin m.workspace_path m.build_relative_path) "target") "classes" ∉ fs →
       pathJoin (pathJoin (pathJoin (pathJoin (pathJoin m.workspace_path m.build_relative_path) "build") "classes") "java") "main" ∉ fs →
       pathJoin (pathJoin (pathJoin (pathJoin m.workspace_path m.build_relative_path) "build") "classes") "main" ∈ fs →
      selectSourceClasses m fs
        = some (pathJoin (pathJoin (pathJoin (pathJoin m.workspace_path m.build_relative_path) "build") "classes") "main"))
    ∧ (selectSourceClasses m fs = none → extract_artifacts m fs op o = .ok (fs, none))
    ∧ (selectSourceClasses m fs = some src → pathJoin op "classes" ∈ fs →
       o.rmtreeDestErr = none → o.copytreeErr = none →
      extract_artifacts m fs op o
        = .ok (copytreeFS (rmtreePath fs (pathJoin op "classes")) src (pathJoin op "classes"),
               some src)) := by
  refine ⟨fun h1 => by simp [selectSourceClasses, h1],
    fun h1 h2 => by simp [selectSourceClasses, h1, h2],
    fun h1 h2 h3 => by simp [selectSourceClasses, h1, h2, h3],
    fun h => by simp [extract_artifacts, h],
    fun h hd hr hc => by simp [extract_artifacts, h, hd, hr, hc]⟩

/-- Claim C7 witness: with both the Maven tree and the modern-Gradle tree
present and an existing destination, extraction deletes the destination and
copies from the Maven tree. -/
theorem extract_priority_and_full_replace_witness :
    extract_artifacts ⟨"/ws", some "maven", some "8", "", "/m"⟩
        ["/ws/target/classes", "/ws/build/classes/java/main", "/out/classes"] "/out" ⟨none, none⟩
      = .ok (copytreeFS
              (rmtreePath ["/ws/target/classes", "/ws/build/classes/java/main", "/out/classes"]
                (pathJoin "/out" "classes"))
              "/ws/target/classes" (pathJoin "/out" "classes"),
             some "/ws/target/classes") :=
  (extract_priority_and_full_replace ⟨"/ws", some "maven", some "8", "", "/m"⟩
    ["/ws/target/classes", "/ws/build/classes/java/main", "/out/classes"] "/out" ⟨none, none⟩
    "/ws/target/classes").2.2.2.2 (by decide) (by decide) rfl rfl

/-- Claim C8: the composed child environment sets `JAVA_HOME` to the selected
home, sets the search path to `JAVA_HOME/bin`, then the tool's bin directory,
prepended in front of the inherited search path, and leaves every other
inherited variable unchanged; the inherited mapping itself is an immutable
snapshot (the composition is a pure function producing a fresh mapping). -/
theorem child_env_composition (inherited : Env) (java_home toolBinDir k : String) :
    (composeChildEnv inherited java_home toolBinDir) "JAVA_HOME" = some java_home
    ∧ (composeChildEnv inherited java_home toolBinDir) "PATH"
        = some (pathJoin java_home "bin" ++ ":" ++ toolBinDir ++ ":" ++ (inherited "PATH").getD "")
    ∧ (k ≠ "JAVA_HOME" → k ≠ "PATH" →
        (composeChildEnv inherited java_home toolBinDir) k = inherited k) := by
  refine ⟨by simp [composeChildEnv, envSet], by simp [composeChildEnv, envSet],
    fun h1 h2 => by simp [composeChildEnv, envSet, h1, h2]⟩

/-- Claim C8 witness: an unrelated inherited variable passes through. -/
theorem child_env_composition_witness :
    composeChildEnv (fun k => if k = "HOME" then some "/root" else none) "/jdk" "/tb" "HOME"
      = some "/root" :=
  (child_env_composition (fun k => if k = "HOME" then some "/root" else none) "/jdk" "/tb"
    "HOME").2.2 (by decide) (by decide)

/-- Claim C9: when both removals succeed, cleaning leaves neither `target`
nor `build` under the build subdirectory, and a second clean is a no-op that
records no warning; and a failure removing `target` does not block the
removal of `build` (each removal is attempted independently; `clean` itself
never raises — it is a total function returning warnings). -/
theorem clean_independent_and_idempotent (m : LocalManager) (fs : FS) (o o' : CleanOracle)
    (msg : String) :
    (o.rmtreeErr (pathJoin (pathJoin m.workspace_path m.build_relative_path) "target") = none →
     o.rmtreeErr (pathJoin (pathJoin m.workspace_path m.build_relative_path) "build") = none →
      pathJoin (pathJoin m.workspace_path m.build_relative_path) "target"
          ∉ (clean_target_on_host m fs o).1
      ∧ pathJoin (pathJoin m.workspace_path m.build_relative_path) "build"
          ∉ (clean_target_on_host m fs o).1
      ∧ clean_target_on_host m (clean_target_on_host m fs o).1 o'
          = ((clean_target_on_host m fs o).1, []))
    ∧ (o.rmtreeErr (pathJoin (pathJoin m.workspace_path m.build_relative_path) "target") = some msg →
       o.rmtreeErr (pathJoin (pathJoin m.workspace_path m.build_relative_path) "build") = none →
       pathJoin (pathJoin m.workspace_path m.build_relative_path) "build" ∈ fs →
      pathJoin (pathJoin m.workspace_path m.build_relative_path) "build"
          ∉ (clean_target_on_host m fs o).1) := by
  constructor
  · intro h1 h2
    set tdir := pathJoin (pathJoin m.workspace_path m.build_relative_path) "target" with htd
    set bdir := pathJoin (pathJoin m.workspace_path m.build_relative_path) "build" with hbd
    have step : ∀ g : FS, tdir ∉ g →
        (tdir ∉ (if bdir ∈ g then rmtreePath g bdir else g)
        ∧ bdir ∉ (if bdir ∈ g then rmtreePath g bdir else g)) := by
      intro g hg
      by_cases hb : bdir ∈ g
      · simp only [if_pos hb]
        exact ⟨fun hx => hg (mem_of_mem_rmtreePath hx), not_mem_rmtreePath_self g bdir⟩
      · simp only [if_neg hb]
        exact ⟨hg, hb⟩
    have hfs1 : (clean_target_on_host m fs o).1
        = (if bdir ∈ (if tdir ∈ fs then rmtreePath fs tdir else fs)
           then rmtreePath (if tdir ∈ fs then rmtreePath fs tdir else fs) bdir
           else (if tdir ∈ fs then rmtreePath fs tdir else fs)) := by
      simp only [clean_target_on_host, List.foldl, ← htd, ← hbd]
      by_cases ht : tdir ∈ fs <;>
        by_cases hb : bdir ∈ (if tdir ∈ fs then rmtreePath fs tdir else fs) <;>
        simp_all [h1, h2]
    have ht1 : tdir ∉ (if tdir ∈ fs then rmtreePath fs tdir else fs) := by
      by_cases ht : tdir ∈ fs
      · simp only [if_pos ht]; exact not_mem_rmtreePath_self fs tdir
      · simp only [if_neg ht]; exact ht
    obtain ⟨hA, hB⟩ := step _ ht1
    rw [hfs1]
    refine ⟨hA, hB, ?_⟩
    simp only [clean_target_on_host, List.foldl, ← htd, ← hbd]
    simp [if_neg hA, if_neg hB]
  · intro h1 h2 hb
    set tdir := pathJoin (pathJoin m.workspace_path m.build_relative_path) "target" with htd
    set bdir := pathJoin (pathJoin m.workspace_path m.build_relative_path) "build" with hbd
    simp only [clean_target_on_host, List.foldl, ← htd, ← hbd]
    by_cases ht : tdir ∈ fs
    · simp only [if_pos ht, h1]
      simp [h2, hb, not_mem_rmtreePath_self]
    · simp only [if_neg ht]
      simp [h2, hb, not_mem_rmtreePath_self]

/-- Claim C9 witness: a concrete tree with both `target` and `build` is left
clean, and the second clean is a warning-free no-op. -/
theorem clean_independent_and_idempotent_witness :
    pathJoin (pathJoin "/ws" "") "target"
        ∉ (clean_target_on_host ⟨"/ws", some "maven", some "8", "", "/m"⟩
            ["/ws/target", "/ws/build", "/ws/src"] ⟨fun _ => none⟩).1
    ∧ pathJoin (pathJoin "/ws" "") "build"
        ∉ (clean_target_on_host ⟨"/ws", some "maven", some "8", "", "/m"⟩
            ["/ws/target", "/ws/build", "/ws/src"] ⟨fun _ => none⟩).1
    ∧ clean_target_on_host ⟨"/ws", some "maven", some "8", "", "/m"⟩
        (clean_target_on_host ⟨"/ws", some "maven", some "8", "", "/m"⟩
          ["/ws/target", "/ws/build", "/ws/src"] ⟨fun _ => none⟩).1 ⟨fun _ => none⟩
      = ((clean_target_on_host ⟨"/ws", some "maven", some "8", "", "/m"⟩
          ["/ws/target", "/ws/build", "/ws/src"] ⟨fun _ => none⟩).1, []) :=
  (clean_independent_and_idempotent ⟨"/ws", some "maven", some "8", "", "/m"⟩
    ["/ws/target", "/ws/build", "/ws/src"] ⟨fun _ => none⟩ ⟨fun _ => none⟩ "m").1 rfl rfl

/-- Claim C10: a missing `"build_tool"` key behaves exactly like the
explicit value `"maven"`, and a missing `"jdk_version"` key exactly like the
textual value `"8"` — so a missing configuration value is never routed to
the unknown-backend branch. -/
theorem missing_config_defaults (m : LocalManager) (fs : FS) (inherited : Env) (o : RunOracle) :
    (m.env_config_build_tool = none →
      run_build m fs inherited o
        = run_build {m with env_config_build_tool := some "maven"} fs inherited o)
    ∧ (m.env_config_jdk_version = none →
      run_build m fs inherited o
        = run_build {m with env_config_jdk_version := some "8"} fs inherited o) := by
  constructor <;> intro h <;> simp [run_build, h]

/-- Claim C10 witness: a fully unset configuration runs like `"maven"`. -/
theorem missing_config_defaults_witness :
    run_build ⟨"/ws", none, none, "", "/m"⟩ [] (fun _ => none)
        ⟨[], [], none, none, ProcResult.exn "x"⟩
      = run_build ⟨"/ws", some "maven", none, "", "/m"⟩ [] (fun _ => none)
          ⟨[], [], none, none, ProcResult.exn "x"⟩ :=
  (missing_config_defaults ⟨"/ws", none, none, "", "/m"⟩ [] (fun _ => none)
    ⟨[], [], none, none, ProcResult.exn "x"⟩).1 rfl

end JavaBuildAgent
